import Mathlib

/-!
Verification of the RSA envelope manager of the fortify repository
(package fortifier, file fortifier_rsa.go).

The Go source is shallowly embedded: every function of the file is
translated into a Lean definition of the same name.  Calls into external
libraries (golang.org/x/crypto/ssh, crypto/x509, crypto/rsa,
encoding/base64, encoding/pem, go-cryptobin/pkcs8, utils.ComputeDigest,
the passphrase prompt and the random source) are modelled as fields of a
record of primitives, CryptoPrims; the repository code is a pure
function over those primitives.  Byte slices are lists of naturals,
Go errors are an explicit inductive, and a Go panic (failed unchecked
type assertion, nil dereference) is a distinguished outcome constructor.
-/

namespace Fortify

deriving instance DecidableEq for Except

/-- Byte slices of Go are modelled as lists of naturals. -/
abbrev Bytes := List Nat

/-- Errors produced by the fortifier code and by the external libraries it
calls.  Constructors that carry a cause model the Go pattern
fmt.Errorf with a wrapped underlying error. -/
inductive GoError where
  | passphraseMissing
  | libError (msg : String)
  | pemDecodingFailed
  | notPkcs1PublicKey (cause : GoError)
  | parsePkixFailed (cause : GoError)
  | unsupportedKeyType (t : String)
  | decryptSecretFailed (cause : GoError)
  | digestMismatch (expect actual : String)
  | requiringRsaPrivateKey (actualType : String)
  | decryptPkcs8Failed
  | base64DecodingError (cause : GoError)
deriving DecidableEq, Repr

/-- Result of running a fortifier operation: normal return value, error
return, or a Go runtime panic (which the source can hit through an
unchecked type assertion or a nil-pointer dereference). -/
inductive Outcome (α : Type) where
  | ok (a : α)
  | error (e : GoError)
  | panics (msg : String)
deriving DecidableEq, Repr

/-- An rsa.PublicKey value; its mathematical content is irrelevant to the
claims, so it is identified by an id. -/
structure RsaPublicKey where
  id : Nat
deriving DecidableEq, Repr

/-- An rsa.PrivateKey value, identified by an id. -/
structure RsaPrivateKey where
  id : Nat
deriving DecidableEq, Repr

/-- A crypto.PublicKey as returned by ssh.CryptoPublicKey.CryptoPublicKey
or x509.ParsePKIXPublicKey: a dynamically typed value that may or may
not be an RSA key. -/
inductive CryptoPub where
  | rsaPub (k : RsaPublicKey)
  | ecdsaPub (id : Nat)
  | ed25519Pub (id : Nat)
  | otherPub (name : String)
deriving DecidableEq, Repr

/-- Go reflect type name of a CryptoPub value, as it would appear in an
interface-conversion panic message. -/
def cryptoPubName : CryptoPub → String
  | .rsaPub _ => "*rsa.PublicKey"
  | .ecdsaPub _ => "*ecdsa.PublicKey"
  | .ed25519Pub _ => "ed25519.PublicKey"
  | .otherPub n => n

/-- An ssh.PublicKey value.  The crypto field is some c when the value
also implements ssh.CryptoPublicKey and c is what CryptoPublicKey()
returns. -/
structure SshPublicKey where
  crypto : Option CryptoPub
deriving DecidableEq, Repr

/-- A private key object as returned by ssh.ParseRawPrivateKey or
x509.ParsePKCS8PrivateKey: a dynamically typed value. -/
inductive GoPrivKey where
  | rsaPriv (k : RsaPrivateKey)
  | ecdsaPriv (id : Nat)
  | ed25519Priv (id : Nat)
  | otherPriv (name : String)
deriving DecidableEq, Repr

/-- Go reflect.TypeOf name of a GoPrivKey value, used in the
type-mismatch error message of parseRsaPrivateKey. -/
def goTypeName : GoPrivKey → String
  | .rsaPriv _ => "*rsa.PrivateKey"
  | .ecdsaPriv _ => "*ecdsa.PrivateKey"
  | .ed25519Priv _ => "ed25519.PrivateKey"
  | .otherPriv n => n

/-- A pem.Block: type string and DER payload (headers are not consulted
by the fortifier code). -/
structure PemBlock where
  type : String
  bytes : Bytes
deriving DecidableEq, Repr

/-- MetadataRsa of fortifier_rsa.go: the persisted envelope record. -/
structure MetadataRsa where
  Timestamp : Nat
  Digest : String
  Ciphertext : String
deriving DecidableEq, Repr

/-- The shared Metadata container (fields the RSA code touches). -/
structure Metadata where
  Key : String
  Timestamp : Nat
  Rsa : Option MetadataRsa
deriving DecidableEq, Repr

/-- CipherKeyData: key-material bytes handed in by the caller plus the
derived raw secret (nil before assignment, modelled as none). -/
structure CipherKeyData where
  kind : String
  bytes : Bytes
  raw : Option Bytes
deriving DecidableEq, Repr

/-- The Fortifier session object. -/
structure Fortifier where
  meta : Metadata
  key : CipherKeyData
  verbose : Bool
deriving DecidableEq, Repr

/-- The CipherKeyKindRSA constant (its concrete value is defined in a
sibling file of the repository and is irrelevant here). -/
def CipherKeyKindRSA : String := "rsa"

/-- External collaborators of fortifier_rsa.go, one field per library
call.  randRead32 is the 32-byte read from the secure random source
performed by this call of setupRsaPublicKey; encryptOAEP folds in the
randomness OAEP consumes.  b64UrlDecode models
base64.URLEncoding.DecodeString, which returns the partially decoded
data together with an optional error. -/
structure CryptoPrims where
  parseAuthorizedKey : Bytes → Except GoError SshPublicKey
  parsePublicKeyBlob : Bytes → Except GoError SshPublicKey
  bytesToString : Bytes → String
  b64UrlEncode : Bytes → String
  b64UrlDecode : String → Bytes × Option GoError
  b64StdDecode : String → Except GoError Bytes
  encryptOAEP : RsaPublicKey → Bytes → Except GoError Bytes
  decryptOAEP : RsaPrivateKey → Bytes → Except GoError Bytes
  computeDigest : Bytes → String
  randRead32 : Except GoError Bytes
  parseRawPrivateKey : Bytes → Except GoError GoPrivKey
  parseRawPrivateKeyWithPassphrase : Bytes → Bytes → Except GoError GoPrivKey
  enterPassphrase : Bytes
  pemDecode : Bytes → Option (PemBlock × Bytes)
  pkcs8DecryptPEMBlock : PemBlock → Bytes → Except GoError Bytes
  parsePKCS8PrivateKey : Bytes → Except GoError GoPrivKey
  parsePKIXPublicKey : Bytes → Except GoError CryptoPub
  parsePKCS1PublicKey : Bytes → Except GoError RsaPublicKey
  now : Nat

/-- Go strings.Split(s, sep) for the single-character separator used by
ParseSSH2PublicKey, implemented over the character list. -/
def splitLinesAux : List Char → List Char → List String
  | [], acc => [String.mk acc.reverse]
  | c :: cs, acc =>
    if c = '\n' then String.mk acc.reverse :: splitLinesAux cs []
    else splitLinesAux cs (c :: acc)

/-- Go strings.Split(keyData, chr(10)). -/
def splitLines (s : String) : List String :=
  splitLinesAux s.data []

/-- Go strings.HasPrefix. -/
def goStartsWith (s pre : String) : Bool :=
  pre.data.isPrefixOf s.data

/-- The BEGIN sentinel line of the SSH2 public-key block format. -/
def ssh2Begin : String := "---- BEGIN SSH2 PUBLIC KEY ----"

/-- The END sentinel line of the SSH2 public-key block format. -/
def ssh2End : String := "---- END SSH2 PUBLIC KEY ----"

/-- The line loop of ParseSSH2PublicKey: walks the lines carrying the
inKey flag and the accumulated base64Data string, translating the
continue/break/append structure of the Go for-loop. -/
def ssh2CollectLoop : List String → Bool → String → String
  | [], _, acc => acc
  | line :: rest, inKey, acc =>
    if line = ssh2Begin then ssh2CollectLoop rest true acc
    else if line = ssh2End then acc
    else if inKey && !(goStartsWith line "Comment:") then
      ssh2CollectLoop rest inKey (acc ++ line)
    else ssh2CollectLoop rest inKey acc

/-- The base64Data string accumulated by ParseSSH2PublicKey on keyData. -/
def ssh2CollectData (keyData : String) : String :=
  ssh2CollectLoop (splitLines keyData) false ""

/-- ParseSSH2PublicKey of fortifier_rsa.go. -/
def ParseSSH2PublicKey (P : CryptoPrims) (keyData : String) :
    Except GoError SshPublicKey :=
  let base64Data := ssh2CollectData keyData
  match P.b64StdDecode base64Data with
  | .error e => .error (.base64DecodingError e)
  | .ok decodedData => P.parsePublicKeyBlob decodedData

/-- The pem.Decode loop body of decodePemFile: repeatedly decode one
block, stop on a nil block or an empty type, append otherwise.  The Go
loop terminates because pem.Decode consumes input; the model carries
fuel, and every claim below depends only on the first iteration, which
runs whenever the fuel is positive. -/
def decodePemLoop (P : CryptoPrims) : Nat → Bytes → List PemBlock
  | 0, _ => []
  | fuel + 1, kb =>
    match P.pemDecode kb with
    | none => []
    | some (blk, rest) =>
      if blk.type = "" then [] else blk :: decodePemLoop P fuel rest

/-- decodePemFile of fortifier_rsa.go. -/
def decodePemFile (P : CryptoPrims) (f : Fortifier) : List PemBlock :=
  decodePemLoop P (f.key.bytes.length + 1) f.key.bytes

/-- Lines 83-102 of setupRsaPublicKey: the final nil check on pub (a bare
return of the named error value) followed by secret generation, OAEP
encryption and metadata assignment. -/
def sealSecret (P : CryptoPrims) (f : Fortifier)
    (pub : Option RsaPublicKey) (err : Option GoError) :
    Fortifier × Outcome Unit :=
  match pub with
  | none =>
    (f, match err with | none => .ok () | some e => .error e)
  | some pubk =>
    match P.randRead32 with
    | .error e => (f, .error e)
    | .ok raw =>
      match P.encryptOAEP pubk raw with
      | .error e => (f, .error e)
      | .ok encrypted =>
        ({ f with
            key := { f.key with raw := some raw },
            meta := { f.meta with
                      Key := CipherKeyKindRSA,
                      Timestamp := P.now,
                      Rsa := some { Timestamp := P.now,
                                    Digest := P.computeDigest raw,
                                    Ciphertext := P.b64UrlEncode encrypted } } },
         .ok ())

/-- Lines 51-54 of setupRsaPublicKey: ssh.ParseAuthorizedKey, and on its
error the ParseSSH2PublicKey fallback; nil when both fail. -/
def locatePublicParsed (P : CryptoPrims) (f : Fortifier) : Option SshPublicKey :=
  match P.parseAuthorizedKey f.key.bytes with
  | .ok k => some k
  | .error _ =>
    match ParseSSH2PublicKey P (P.bytesToString f.key.bytes) with
    | .ok k => some k
    | .error _ => none

/-- Lines 55-60 of setupRsaPublicKey: the checked assertions that extract
an rsa.PublicKey from the parsed ssh.PublicKey, nil otherwise. -/
def locatePublicPub (P : CryptoPrims) (f : Fortifier) : Option RsaPublicKey :=
  match locatePublicParsed P f with
  | none => none
  | some p =>
    match p.crypto with
    | none => none
    | some c =>
      match c with
      | .rsaPub k => some k
      | _ => none

/-- Which of the fallback parse attempts of setupRsaPublicKey were
exercised on a given input. -/
structure PubTrace where
  triedSSH2 : Bool
  triedPem : Bool
deriving DecidableEq, Repr

/-- setupRsaPublicKey of fortifier_rsa.go, instrumented with a trace
recording whether the SSH2 attempt ran (the x not-nil branch of line 52)
and whether the PEM branch ran (the pub nil branch of line 61). -/
def setupRsaPublicKeyTr (P : CryptoPrims) (f : Fortifier) :
    (Fortifier × Outcome Unit) × PubTrace :=
  let triedSSH2 : Bool :=
    match P.parseAuthorizedKey f.key.bytes with
    | .ok _ => false
    | .error _ => true
  match locatePublicPub P f with
  | some pubk => (sealSecret P f (some pubk) none, ⟨triedSSH2, false⟩)
  | none =>
    let r : Fortifier × Outcome Unit :=
      match decodePemFile P f with
      | [] => (f, .error .pemDecodingFailed)
      | block :: _ =>
        if block.type = "RSA PUBLIC KEY" then
          match P.parsePKCS1PublicKey block.bytes with
          | .error e => (f, .error (.notPkcs1PublicKey e))
          | .ok k => sealSecret P f (some k) none
        else if block.type = "PUBLIC KEY" then
          match P.parsePKIXPublicKey block.bytes with
          | .error e => (f, .error (.parsePkixFailed e))
          | .ok c =>
            match c with
            | .rsaPub k => sealSecret P f (some k) none
            | c =>
              (f, .panics ("interface conversion: interface is "
                           ++ cryptoPubName c ++ ", not *rsa.PublicKey"))
        else (f, .error (.unsupportedKeyType block.type))
    (r, ⟨triedSSH2, true⟩)

/-- setupRsaPublicKey of fortifier_rsa.go (the result component of the
instrumented definition). -/
def setupRsaPublicKey (P : CryptoPrims) (f : Fortifier) :
    Fortifier × Outcome Unit :=
  (setupRsaPublicKeyTr P f).1

/-- Lines 127-132 of parseRsaPrivateKey: ssh.ParseRawPrivateKey with the
lazy passphrase retry on a PassphraseMissingError.  The pair mirrors the
Go variables (k, err). -/
def stepOnePrivate (P : CryptoPrims) (bytes : Bytes) :
    Option GoPrivKey × Option GoError :=
  match P.parseRawPrivateKey bytes with
  | .ok k => (some k, none)
  | .error e =>
    match e with
    | .passphraseMissing =>
      match P.parseRawPrivateKeyWithPassphrase bytes P.enterPassphrase with
      | .ok k => (some k, none)
      | .error e2 => (none, some e2)
    | e => (none, some e)

/-- Lines 127-151 of parseRsaPrivateKey: step one plus the PEM fallback
on its error, again as the Go pair (k, err). -/
def locatedKey (P : CryptoPrims) (f : Fortifier) :
    Option GoPrivKey × Option GoError :=
  match stepOnePrivate P f.key.bytes with
  | (kq, none) => (kq, none)
  | (kq, some err) =>
    match decodePemFile P f with
    | [] => (none, some err)
    | block :: _ =>
      if block.type = "ENCRYPTED PRIVATE KEY" then
        match P.pkcs8DecryptPEMBlock block P.enterPassphrase with
        | .error _ => (none, some .decryptPkcs8Failed)
        | .ok decrypted =>
          match P.parsePKCS8PrivateKey decrypted with
          | .error e => (none, some e)
          | .ok k => (some k, none)
      else (kq, some err)

/-- parseRsaPrivateKey of fortifier_rsa.go: the located (k, err) pair,
the error return of line 152, and the type assertion of lines 155-159. -/
def parseRsaPrivateKey (P : CryptoPrims) (f : Fortifier) :
    Except GoError RsaPrivateKey :=
  match locatedKey P f with
  | (_, some err) => .error err
  | (kq, none) =>
    match kq with
    | some (.rsaPriv key) => .ok key
    | some k => .error (.requiringRsaPrivateKey (goTypeName k))
    | none => .error (.requiringRsaPrivateKey "<nil>")

/-- setupRsaPrivateKey of fortifier_rsa.go.  Note line 112: the error of
base64.URLEncoding.DecodeString is assigned to err but immediately
overwritten by the DecryptOAEP assignment of line 113 without being
inspected, so the model keeps only the (partially) decoded bytes.
DecryptOAEP assigns f.key.raw on both paths (nil on its error). -/
def setupRsaPrivateKey (P : CryptoPrims) (f : Fortifier) :
    Fortifier × Outcome Unit :=
  match parseRsaPrivateKey P f with
  | .error e => (f, .error e)
  | .ok pri =>
    match f.meta.Rsa with
    | none => (f, .panics "runtime error: invalid memory address or nil pointer dereference")
    | some m =>
      let ciphertext := (P.b64UrlDecode m.Ciphertext).1
      match P.decryptOAEP pri ciphertext with
      | .error e =>
        ({ f with key := { f.key with raw := none } },
         .error (.decryptSecretFailed e))
      | .ok raw =>
        let f1 := { f with key := { f.key with raw := some raw } }
        let actual := P.computeDigest raw
        if m.Digest = actual then (f1, .ok ())
        else (f1, .error (.digestMismatch m.Digest actual))

/-- setupRsaKey of fortifier_rsa.go: dispatch on the presence of an
existing envelope record. -/
def setupRsaKey (P : CryptoPrims) (f : Fortifier) : Fortifier × Outcome Unit :=
  match f.meta.Rsa with
  | none => setupRsaPublicKey P f
  | some _ => setupRsaPrivateKey P f

/-- Concatenation of a list of strings in order. -/
def joinAll : List String → String
  | [] => ""
  | s :: rest => s ++ joinAll rest

/-- The collection rule ParseSSH2PublicKey actually implements, stated
structurally: among the lines preceding the first END sentinel (all
lines when there is none), take those after the first BEGIN sentinel,
dropping every further BEGIN sentinel line and every line with the
Comment: marker, and concatenate. -/
def ssh2AmendedCollect (keyData : String) : String :=
  joinAll (((((splitLines keyData).takeWhile (fun l => l != ssh2End)).dropWhile
      (fun l => l != ssh2Begin)).drop 1).filter
      (fun l => l != ssh2Begin && !(goStartsWith l "Comment:")))

/-- The collection rule in the words of the claim: exactly the lines
strictly between the BEGIN sentinel and the END sentinel that follows
it, excluding only the lines with the Comment: marker, concatenated in
order. -/
def ssh2ClaimCollect (keyData : String) : String :=
  joinAll (((((splitLines keyData).dropWhile (fun l => l != ssh2Begin)).drop
      1).takeWhile (fun l => l != ssh2End)).filter
      (fun l => !(goStartsWith l "Comment:")))

/-- Appending the empty string on the right, on the list-of-characters
model of String. -/
theorem str_append_empty (s : String) : s ++ "" = s := by
  cases s with
  | mk data => show String.mk (data ++ []) = String.mk data
               rw [List.append_nil]

/-- String concatenation is associative. -/
theorem str_append_assoc (a b c : String) : a ++ b ++ c = a ++ (b ++ c) := by
  cases a with
  | mk la =>
    cases b with
    | mk lb =>
      cases c with
      | mk lc => show String.mk (la ++ lb ++ lc) = String.mk (la ++ (lb ++ lc))
                 rw [List.append_assoc]

/-- With the inKey flag already set, the loop collects the non-sentinel,
non-comment lines up to the first END line. -/
theorem ssh2CollectLoop_true (lines : List String) :
    ∀ acc : String,
      ssh2CollectLoop lines true acc
        = acc ++ joinAll ((lines.takeWhile (fun l => l != ssh2End)).filter
            (fun l => l != ssh2Begin && !(goStartsWith l "Comment:"))) := by
  induction lines with
  | nil => intro acc; simp [ssh2CollectLoop, joinAll, str_append_empty]
  | cons line rest ih =>
    intro acc
    by_cases hb : line = ssh2Begin
    · subst hb
      have h1 : (ssh2Begin != ssh2End) = true := by decide
      have h2 : (ssh2Begin != ssh2Begin) = false := by decide
      simp [ssh2CollectLoop, List.takeWhile, List.filter, h1, h2, ih]
    · by_cases he : line = ssh2End
      · subst he
        have h3 : (ssh2End != ssh2End) = false := by decide
        have h4 : ¬ (ssh2End = ssh2Begin) := by decide
        simp [ssh2CollectLoop, List.takeWhile, joinAll, h3, h4, str_append_empty]
      · have hb' : (line != ssh2Begin) = true := by simpa using hb
        have he' : (line != ssh2End) = true := by simpa using he
        by_cases hc : goStartsWith line "Comment:" = true
        · simp [ssh2CollectLoop, List.takeWhile, List.filter, hb, he, hb', he', hc, ih]
        · have hc' : goStartsWith line "Comment:" = false := by simpa using hc
          simp [ssh2CollectLoop, List.takeWhile, List.filter, joinAll,
                hb, he, hb', he', hc', ih, str_append_assoc]

/-- With the inKey flag still clear, the loop first seeks the BEGIN line
(stopping at an END line) and then behaves as the inKey loop. -/
theorem ssh2CollectLoop_false (lines : List String) :
    ∀ acc : String,
      ssh2CollectLoop lines false acc
        = acc ++ joinAll (((((lines.takeWhile (fun l => l != ssh2End)).dropWhile
              (fun l => l != ssh2Begin)).drop 1).filter
              (fun l => l != ssh2Begin && !(goStartsWith l "Comment:")))) := by
  induction lines with
  | nil => intro acc; simp [ssh2CollectLoop, joinAll, str_append_empty]
  | cons line rest ih =>
    intro acc
    by_cases hb : line = ssh2Begin
    · subst hb
      have h1 : (ssh2Begin != ssh2End) = true := by decide
      have h2 : (ssh2Begin != ssh2Begin) = false := by decide
      simp [ssh2CollectLoop, List.takeWhile, List.dropWhile, h1, h2,
            ssh2CollectLoop_true]
    · by_cases he : line = ssh2End
      · subst he
        have h3 : (ssh2End != ssh2End) = false := by decide
        have h4 : ¬ (ssh2End = ssh2Begin) := by decide
        simp [ssh2CollectLoop, List.takeWhile, joinAll, h3, h4, str_append_empty]
      · have hb' : (line != ssh2Begin) = true := by simpa using hb
        have he' : (line != ssh2End) = true := by simpa using he
        simp [ssh2CollectLoop, List.takeWhile, List.dropWhile, ih, hb, he, hb', he']

/-- The accumulated base64 data of ParseSSH2PublicKey equals the
structurally described collection. -/
theorem ssh2CollectData_eq (keyData : String) :
    ssh2CollectData keyData = ssh2AmendedCollect keyData := by
  unfold ssh2CollectData ssh2AmendedCollect
  rw [ssh2CollectLoop_false]
  cases h : splitLines keyData <;> simp

/-! Concrete primitive instances used by witnesses and counterexamples.
Each is the uninteresting base instance with a few fields overridden to
stage the scenario of one claim; the overridden fields behave as the
real library does on the inputs that actually occur there. -/

/-- Base instance of the primitives: every parser fails, every codec is
trivial.  Witness instances override the fields their scenario needs. -/
def basePrims : CryptoPrims where
  parseAuthorizedKey := fun _ => .error (.libError "ssh: no key found")
  parsePublicKeyBlob := fun _ => .error (.libError "ssh: short read")
  bytesToString := fun _ => ""
  b64UrlEncode := fun _ => ""
  b64UrlDecode := fun _ => ([], none)
  b64StdDecode := fun _ => .ok []
  encryptOAEP := fun _ _ => .error (.libError "crypto/rsa: encryption error")
  decryptOAEP := fun _ _ => .error (.libError "crypto/rsa: decryption error")
  computeDigest := fun _ => ""
  randRead32 := .error (.libError "rand: closed")
  parseRawPrivateKey := fun _ => .error (.libError "ssh: no key found")
  parseRawPrivateKeyWithPassphrase := fun _ _ => .error (.libError "ssh: no key found")
  enterPassphrase := []
  pemDecode := fun _ => none
  pkcs8DecryptPEMBlock := fun _ _ => .error (.libError "pkcs8: incorrect password")
  parsePKCS8PrivateKey := fun _ => .error (.libError "asn1: syntax error")
  parsePKIXPublicKey := fun _ => .error (.libError "asn1: syntax error")
  parsePKCS1PublicKey := fun _ => .error (.libError "asn1: syntax error")
  now := 0

/-- A session object holding key bytes b and no envelope record. -/
def mkFortifier (b : Bytes) : Fortifier :=
  { meta := { Key := "", Timestamp := 0, Rsa := none },
    key := { kind := CipherKeyKindRSA, bytes := b, raw := none },
    verbose := false }

/-- A session object holding key bytes b and envelope record m. -/
def mkFortifierMeta (b : Bytes) (m : MetadataRsa) : Fortifier :=
  { meta := { Key := CipherKeyKindRSA, Timestamp := 0, Rsa := some m },
    key := { kind := CipherKeyKindRSA, bytes := b, raw := none },
    verbose := false }

/-! Claim C9: ParseSSH2PublicKey collects the lines between the SSH2
sentinels, skips comments, base64-decodes and parses the blob. -/

/-- Input refuting the collection rule of the claim: the BEGIN sentinel line
occurs a second time inside the block. -/
def ssh2CexInput : String :=
  "---- BEGIN SSH2 PUBLIC KEY ----\n---- BEGIN SSH2 PUBLIC KEY ----\nQQ==\n---- END SSH2 PUBLIC KEY ----"

/-- Primitives for the C9 counterexample: the base64 decoder accepts the
well-formed quadruple and rejects the string polluted by the sentinel
text (which contains characters outside the base64 alphabet), and blob
parsing of the single decoded byte fails as the ssh library would. -/
def ssh2CexPrims : CryptoPrims :=
  { basePrims with
    b64StdDecode := fun s =>
      if s = "QQ==" then .ok [65]
      else .error (.libError "illegal base64 data at input byte 4"),
    parsePublicKeyBlob := fun _ => .error (.libError "ssh: short read") }

/-- Claim C9 is false as stated: on an input whose block contains a
second BEGIN sentinel line, the accumulated data is not the
concatenation of all non-Comment lines strictly between the sentinels
(the code also skips the repeated sentinel), and the result of the function
differs from the one the claimed pipeline would produce. -/
theorem C9_counterexample :
    ssh2CollectData ssh2CexInput ≠ ssh2ClaimCollect ssh2CexInput ∧
    ParseSSH2PublicKey ssh2CexPrims ssh2CexInput
      ≠ (match ssh2CexPrims.b64StdDecode (ssh2ClaimCollect ssh2CexInput) with
         | .error e => .error (.base64DecodingError e)
         | .ok d => ssh2CexPrims.parsePublicKeyBlob d) := by
  constructor
  · decide
  · decide

/-- Claim C9 (amended): for every input string, ParseSSH2PublicKey
concatenates, among the lines preceding the first END sentinel line
(all lines if there is none), those following the first BEGIN sentinel
line, excluding every BEGIN sentinel line and every line starting with
Comment:, standard-base64-decodes the concatenation, and parses the
decoded bytes as an SSH public-key blob; a base64 decode failure or a
blob parse failure yields an error. -/
theorem C9_parse_ssh2_pipeline (P : CryptoPrims) (keyData : String) :
    ParseSSH2PublicKey P keyData
      = (match P.b64StdDecode (ssh2AmendedCollect keyData) with
         | .error e => .error (.base64DecodingError e)
         | .ok decodedData => P.parsePublicKeyBlob decodedData) := by
  unfold ParseSSH2PublicKey
  rw [ssh2CollectData_eq]

/-- If no line equals the BEGIN sentinel, the loop collects nothing. -/
theorem ssh2CollectLoop_no_begin (lines : List String) :
    ∀ acc : String, (∀ l ∈ lines, l ≠ ssh2Begin) →
      ssh2CollectLoop lines false acc = acc := by
  induction lines with
  | nil => intro acc _; rfl
  | cons line rest ih =>
    intro acc h
    have hb : ¬ line = ssh2Begin := h line (List.mem_cons_self line rest)
    have hrest : ∀ l ∈ rest, l ≠ ssh2Begin :=
      fun l hl => h l (List.mem_cons_of_mem line hl)
    by_cases he : line = ssh2End
    · subst he
      simp [ssh2CollectLoop, hb]
    · simp [ssh2CollectLoop, hb, he, ih acc hrest]

/-- Claim C10: on every input with no BEGIN sentinel line, the
accumulated base64 data is empty, and ParseSSH2PublicKey propagates the
failure of parsing the empty blob (the real ssh.ParsePublicKey fails on
empty input), so the function returns an error and never a key. -/
theorem C10_no_begin_errors (P : CryptoPrims) (s : String) (msg : GoError)
    (hb : ∀ l ∈ splitLines s, l ≠ ssh2Begin)
    (hdec : P.b64StdDecode "" = .ok [])
    (hparse : P.parsePublicKeyBlob [] = .error msg) :
    ssh2CollectData s = "" ∧ ParseSSH2PublicKey P s = .error msg := by
  have hc : ssh2CollectData s = "" := ssh2CollectLoop_no_begin _ "" hb
  refine ⟨hc, ?_⟩
  simp only [ParseSSH2PublicKey, hc, hdec]
  exact hparse

/-- Witness for C10 at a concrete input with no sentinel lines. -/
theorem C10_no_begin_errors_witness :
    (∀ l ∈ splitLines "hello\nworld", l ≠ ssh2Begin) ∧
    ssh2CollectData "hello\nworld" = "" ∧
    ParseSSH2PublicKey basePrims "hello\nworld" = .error (.libError "ssh: short read") :=
  ⟨by decide,
   C10_no_begin_errors basePrims "hello\nworld" (.libError "ssh: short read")
     (by decide) (by decide) (by decide)⟩

/-! Claim C1: base64url decode failure of the ciphertext in
setupRsaPrivateKey. -/

/-- Primitives for the C1 failing input: the stored ciphertext text is
valid base64url followed by one illegal character, so DecodeString
returns the fully decoded prefix together with an error; OAEP
decryption of that prefix succeeds and the digest matches. -/
def c1Prims : CryptoPrims :=
  { basePrims with
    parseRawPrivateKey := fun _ => .ok (.rsaPriv ⟨3⟩),
    b64UrlDecode := fun s =>
      if s = "CT!" then ([9], some (.libError "illegal base64 data at input byte 2"))
      else ([], none),
    decryptOAEP := fun _ c => if c = [9] then .ok [5] else .error (.libError "crypto/rsa: decryption error"),
    computeDigest := fun b => if b = [5] then "D5" else "?" }

/-- The envelope record of the C1 failing input. -/
def c1Meta : MetadataRsa := { Timestamp := 0, Digest := "D5", Ciphertext := "CT!" }

/-- Claim C1 is contradicted by the code: line 112 of fortifier_rsa.go
assigns the DecodeString error to err, but line 113 overwrites err with
the DecryptOAEP result before it is ever inspected, so a record whose
ciphertext fails base64url decoding can still be unsealed successfully
when the partially decoded data decrypts to a secret with a matching
digest.  Evaluated at the failing input: the decoder reports an error,
yet setupRsaPrivateKey returns success and stores the secret. -/
theorem C1_decode_error_ignored :
    (c1Prims.b64UrlDecode c1Meta.Ciphertext).2
        = some (.libError "illegal base64 data at input byte 2") ∧
    setupRsaPrivateKey c1Prims (mkFortifierMeta [1] c1Meta)
      = ({ mkFortifierMeta [1] c1Meta with
           key := { (mkFortifierMeta [1] c1Meta).key with raw := some [5] } },
         .ok ()) := by
  constructor
  · decide
  · decide

/-! Claims C5 and C6: the digest-mismatch path of setupRsaPrivateKey. -/

/-- On a successful OAEP decryption whose recomputed digest differs from
the record digest, setupRsaPrivateKey stores the decrypted bytes in
key.raw and returns the digest-mismatch error carrying the expected and
actual digests.  Shared by the C5 and C6 theorems. -/
theorem setupRsaPrivateKey_mismatch (P : CryptoPrims) (f : Fortifier)
    (m : MetadataRsa) (pri : RsaPrivateKey) (raw : Bytes)
    (hm : f.meta.Rsa = some m)
    (hp : parseRsaPrivateKey P f = .ok pri)
    (hd : P.decryptOAEP pri (P.b64UrlDecode m.Ciphertext).1 = .ok raw)
    (hne : P.computeDigest raw ≠ m.Digest) :
    setupRsaPrivateKey P f
      = ({ f with key := { f.key with raw := some raw } },
         .error (.digestMismatch m.Digest (P.computeDigest raw))) := by
  simp only [setupRsaPrivateKey, hp, hm, hd]
  rw [if_neg (Ne.symm hne)]

/-- Claim C5: whenever OAEP decryption succeeds but the recomputed digest
of the decrypted secret differs from the record digest, the operation
fails with a digest-mismatch error reporting both the expected digest
(from the record) and the actual recomputed one, and never returns
success. -/
theorem C5_digest_mismatch_error (P : CryptoPrims) (f : Fortifier)
    (m : MetadataRsa) (pri : RsaPrivateKey) (raw : Bytes)
    (hm : f.meta.Rsa = some m)
    (hp : parseRsaPrivateKey P f = .ok pri)
    (hd : P.decryptOAEP pri (P.b64UrlDecode m.Ciphertext).1 = .ok raw)
    (hne : P.computeDigest raw ≠ m.Digest) :
    setupRsaPrivateKey P f
      = ({ f with key := { f.key with raw := some raw } },
         .error (.digestMismatch m.Digest (P.computeDigest raw))) :=
  setupRsaPrivateKey_mismatch P f m pri raw hm hp hd hne

/-- Primitives for the digest-mismatch witnesses: decryption succeeds but
the recomputed digest D5 differs from the stored digest EXP. -/
def mismatchPrims : CryptoPrims :=
  { basePrims with
    parseRawPrivateKey := fun _ => .ok (.rsaPriv ⟨3⟩),
    b64UrlDecode := fun s => if s = "CT" then ([9], none) else ([], none),
    decryptOAEP := fun _ c => if c = [9] then .ok [5] else .error (.libError "crypto/rsa: decryption error"),
    computeDigest := fun b => if b = [5] then "D5" else "?" }

/-- The envelope record of the digest-mismatch witnesses. -/
def mismatchMeta : MetadataRsa := { Timestamp := 0, Digest := "EXP", Ciphertext := "CT" }

/-- Witness for C5 at a concrete mismatching record. -/
theorem C5_digest_mismatch_error_witness :
    (mkFortifierMeta [1] mismatchMeta).meta.Rsa = some mismatchMeta ∧
    parseRsaPrivateKey mismatchPrims (mkFortifierMeta [1] mismatchMeta) = .ok ⟨3⟩ ∧
    mismatchPrims.decryptOAEP ⟨3⟩ (mismatchPrims.b64UrlDecode mismatchMeta.Ciphertext).1 = .ok [5] ∧
    mismatchPrims.computeDigest [5] ≠ mismatchMeta.Digest ∧
    setupRsaPrivateKey mismatchPrims (mkFortifierMeta [1] mismatchMeta)
      = ({ mkFortifierMeta [1] mismatchMeta with
           key := { (mkFortifierMeta [1] mismatchMeta).key with raw := some [5] } },
         .error (.digestMismatch mismatchMeta.Digest (mismatchPrims.computeDigest [5]))) :=
  ⟨by decide, by decide, by decide, by decide,
   C5_digest_mismatch_error mismatchPrims (mkFortifierMeta [1] mismatchMeta)
     mismatchMeta ⟨3⟩ [5] (by decide) (by decide) (by decide) (by decide)⟩

/-- Claim C6: on the digest-mismatch failure, key.raw has already been
assigned the decrypted but unverified secret (a non-nil value whose
digest does not match the record) before the error is returned, so the
failure is not atomic with respect to the stored secret. -/
theorem C6_raw_assigned_before_mismatch (P : CryptoPrims) (f : Fortifier)
    (m : MetadataRsa) (pri : RsaPrivateKey) (raw : Bytes)
    (hm : f.meta.Rsa = some m)
    (hp : parseRsaPrivateKey P f = .ok pri)
    (hd : P.decryptOAEP pri (P.b64UrlDecode m.Ciphertext).1 = .ok raw)
    (hne : P.computeDigest raw ≠ m.Digest) :
    (setupRsaPrivateKey P f).1.key.raw = some raw ∧
    P.computeDigest raw ≠ m.Digest ∧
    (setupRsaPrivateKey P f).2
      = .error (.digestMismatch m.Digest (P.computeDigest raw)) := by
  rw [setupRsaPrivateKey_mismatch P f m pri raw hm hp hd hne]
  exact ⟨rfl, hne, rfl⟩

/-- Witness for C6 at the same concrete mismatching record. -/
theorem C6_raw_assigned_before_mismatch_witness :
    (mkFortifierMeta [2] mismatchMeta).meta.Rsa = some mismatchMeta ∧
    parseRsaPrivateKey mismatchPrims (mkFortifierMeta [2] mismatchMeta) = .ok ⟨3⟩ ∧
    mismatchPrims.decryptOAEP ⟨3⟩ (mismatchPrims.b64UrlDecode mismatchMeta.Ciphertext).1 = .ok [5] ∧
    ((setupRsaPrivateKey mismatchPrims (mkFortifierMeta [2] mismatchMeta)).1.key.raw = some [5] ∧
     mismatchPrims.computeDigest [5] ≠ mismatchMeta.Digest ∧
     (setupRsaPrivateKey mismatchPrims (mkFortifierMeta [2] mismatchMeta)).2
       = .error (.digestMismatch mismatchMeta.Digest (mismatchPrims.computeDigest [5]))) :=
  ⟨by decide, by decide, by decide,
   C6_raw_assigned_before_mismatch mismatchPrims (mkFortifierMeta [2] mismatchMeta)
     mismatchMeta ⟨3⟩ [5] (by decide) (by decide) (by decide) (by decide)⟩

/-! Claim C7: propagation of the step-1 error of parseRsaPrivateKey. -/

/-- Claim C7: when SSH-native parsing (including the passphrase retry)
fails and the PEM scan finds no blocks, or a first block whose type is
not ENCRYPTED PRIVATE KEY, parseRsaPrivateKey returns exactly the
step-1 parse error. -/
theorem C7_original_error_propagated (P : CryptoPrims) (f : Fortifier)
    (kq : Option GoPrivKey) (err : GoError)
    (h1 : stepOnePrivate P f.key.bytes = (kq, some err))
    (h2 : decodePemFile P f = [] ∨
          ∃ b bs, decodePemFile P f = b :: bs ∧ b.type ≠ "ENCRYPTED PRIVATE KEY") :
    parseRsaPrivateKey P f = .error err := by
  rcases h2 with h2 | ⟨b, bs, h2, ht⟩
  · simp [parseRsaPrivateKey, locatedKey, h1, h2]
  · simp [parseRsaPrivateKey, locatedKey, h1, h2, ht]

/-- Witness for C7: an undecodable private key with no PEM blocks. -/
theorem C7_original_error_propagated_witness :
    stepOnePrivate basePrims (mkFortifier [1]).key.bytes
      = (none, some (.libError "ssh: no key found")) ∧
    decodePemFile basePrims (mkFortifier [1]) = [] ∧
    parseRsaPrivateKey basePrims (mkFortifier [1])
      = .error (.libError "ssh: no key found") :=
  ⟨by decide, by decide,
   C7_original_error_propagated basePrims (mkFortifier [1]) none
     (.libError "ssh: no key found") (by decide) (Or.inl (by decide))⟩

/-! Claim C8: the concluding type assertion of parseRsaPrivateKey. -/

/-- Claim C8: whatever key object the parse steps produced, the function
returns it only when it is an RSA private key, and otherwise fails with
a type-mismatch error naming the actual type encountered. -/
theorem C8_type_assertion (P : CryptoPrims) (f : Fortifier) :
    (∀ k : GoPrivKey, locatedKey P f = (some k, none) →
       parseRsaPrivateKey P f
         = (match k with
            | .rsaPriv key => .ok key
            | k => .error (.requiringRsaPrivateKey (goTypeName k)))) ∧
    (∀ key : RsaPrivateKey, parseRsaPrivateKey P f = .ok key →
       locatedKey P f = (some (.rsaPriv key), none)) := by
  constructor
  · intro k hk
    unfold parseRsaPrivateKey
    rw [hk]
    cases k <;> rfl
  · intro key hk
    unfold parseRsaPrivateKey at hk
    rcases h : locatedKey P f with ⟨kq, errq⟩
    rw [h] at hk
    cases errq with
    | some e => exact absurd hk (by simp)
    | none =>
      cases kq with
      | none => exact absurd hk (by simp)
      | some k =>
        cases k with
        | rsaPriv k0 => simp_all
        | ecdsaPriv i => exact absurd hk (by simp)
        | ed25519Priv i => exact absurd hk (by simp)
        | otherPriv n => exact absurd hk (by simp)

/-- Primitives for the C8 witness: SSH-native parsing yields an Ed25519
private key. -/
def c8Prims : CryptoPrims :=
  { basePrims with parseRawPrivateKey := fun _ => .ok (.ed25519Priv 7) }

/-- Witness for C8: a successfully parsed non-RSA key is rejected with
the type-mismatch error naming ed25519.PrivateKey. -/
theorem C8_type_assertion_witness :
    locatedKey c8Prims (mkFortifier [1]) = (some (.ed25519Priv 7), none) ∧
    parseRsaPrivateKey c8Prims (mkFortifier [1])
      = .error (.requiringRsaPrivateKey "ed25519.PrivateKey") :=
  ⟨by decide,
   (C8_type_assertion c8Prims (mkFortifier [1])).1 (.ed25519Priv 7) (by decide)⟩

/-! Claim C2: a PUBLIC KEY PEM block whose PKIX payload is not an RSA
key. -/

/-- Primitives for the C2 failing input: both SSH attempts fail, the PEM
scan yields one PUBLIC KEY block, and PKIX parsing of its payload
succeeds with an Ed25519 public key. -/
def c2Prims : CryptoPrims :=
  { basePrims with
    pemDecode := fun b =>
      if b = [1] then some ({ type := "PUBLIC KEY", bytes := [2] }, [])
      else none,
    parsePKIXPublicKey := fun b =>
      if b = [2] then .ok (.ed25519Pub 5) else .error (.libError "asn1: syntax error") }

/-- Claim C2 is contradicted by the code: line 81 of fortifier_rsa.go
converts the PKIX result with an unchecked type assertion, so a PUBLIC
KEY block whose PKIX payload parses as a non-RSA key makes the
operation panic instead of returning an error.  Evaluated at the
failing input, the outcome is the interface-conversion panic (and not
an acceptance of the key). -/
theorem C2_pkix_non_rsa_panics :
    setupRsaPublicKey c2Prims (mkFortifier [1])
      = (mkFortifier [1],
         .panics "interface conversion: interface is ed25519.PublicKey, not *rsa.PublicKey") := by
  decide

/-! Claim C3: the order of the public-key parse attempts. -/

/-- Primitives for the C3 counterexample: ssh.ParseAuthorizedKey
succeeds, but the parsed key is Ed25519, not RSA. -/
def c3Prims : CryptoPrims :=
  { basePrims with
    parseAuthorizedKey := fun _ => .ok { crypto := some (.ed25519Pub 4) } }

/-- Claim C3 is false as stated: on an input that parses successfully as
an authorized key of a non-RSA type, the SSH2 attempt is skipped (the
guard of line 52 fires only on a parse error) even though the flow does
fall through to the PEM scan. -/
theorem C3_counterexample :
    c3Prims.parseAuthorizedKey (mkFortifier [1]).key.bytes
      = .ok { crypto := some (.ed25519Pub 4) } ∧
    (setupRsaPublicKeyTr c3Prims (mkFortifier [1])).2.triedSSH2 = false ∧
    (setupRsaPublicKeyTr c3Prims (mkFortifier [1])).2.triedPem = true := by
  refine ⟨by decide, by decide, by decide⟩

/-- Claim C3 (amended): the attempts still run in the order
authorized-key, SSH2, PEM, but the SSH2 attempt runs exactly when
ssh.ParseAuthorizedKey returns an error (a successful parse of a
non-RSA key skips it), and the PEM scan runs exactly when the first two
attempts produced no RSA public key. -/
theorem C3_attempt_order_amended (P : CryptoPrims) (f : Fortifier) :
    (setupRsaPublicKeyTr P f).1 = setupRsaPublicKey P f ∧
    ((setupRsaPublicKeyTr P f).2.triedSSH2 = true ↔
       ∃ e, P.parseAuthorizedKey f.key.bytes = .error e) ∧
    ((setupRsaPublicKeyTr P f).2.triedPem = true ↔ locatePublicPub P f = none) := by
  refine ⟨rfl, ?_, ?_⟩
  · cases h : P.parseAuthorizedKey f.key.bytes with
    | ok k =>
      cases hp : locatePublicPub P f <;>
        simp [setupRsaPublicKeyTr, h, hp]
    | error e =>
      cases hp : locatePublicPub P f <;>
        simp [setupRsaPublicKeyTr, h, hp]
  · cases h : P.parseAuthorizedKey f.key.bytes with
    | ok k =>
      cases hp : locatePublicPub P f <;>
        simp [setupRsaPublicKeyTr, h, hp]
    | error e =>
      cases hp : locatePublicPub P f <;>
        simp [setupRsaPublicKeyTr, h, hp]

/-! Claim C4: the seal/unseal roundtrip. -/

/-- The session object handed to the unseal call: the private-key bytes
of g together with the envelope record m produced by seal. -/
def unsealInput (g : Fortifier) (m : MetadataRsa) : Fortifier :=
  { g with meta := { g.meta with Rsa := some m } }

/-- Claim C4: for a matched RSA key pair (here: a public key recovered
from attempt 1 and a private key recovered by SSH-native parsing, with
OAEP decryption inverting OAEP encryption and base64url decoding
inverting encoding), unsealing the record produced by sealing succeeds,
recovers exactly the 32-byte secret generated inside seal, and the
record digest equals ComputeDigest of that secret. -/
theorem C4_seal_unseal_roundtrip (P : CryptoPrims) (f g : Fortifier)
    (sp : SshPublicKey) (pub : RsaPublicKey) (pri : RsaPrivateKey)
    (raw enc : Bytes)
    (hauth : P.parseAuthorizedKey f.key.bytes = .ok sp)
    (hsp : sp.crypto = some (.rsaPub pub))
    (hlen : raw.length = 32)
    (hrand : P.randRead32 = .ok raw)
    (henc : P.encryptOAEP pub raw = .ok enc)
    (hb64 : P.b64UrlDecode (P.b64UrlEncode enc) = (enc, none))
    (hdec : P.decryptOAEP pri enc = .ok raw)
    (hpri : P.parseRawPrivateKey g.key.bytes = .ok (.rsaPriv pri)) :
    ∃ m : MetadataRsa,
      (setupRsaPublicKey P f).2 = .ok () ∧
      (setupRsaPublicKey P f).1.key.raw = some raw ∧
      raw.length = 32 ∧
      (setupRsaPublicKey P f).1.meta.Rsa = some m ∧
      m.Digest = P.computeDigest raw ∧
      (setupRsaPrivateKey P (unsealInput g m)).2 = .ok () ∧
      (setupRsaPrivateKey P (unsealInput g m)).1.key.raw = some raw := by
  have hpub : locatePublicPub P f = some pub := by
    simp [locatePublicPub, locatePublicParsed, hauth, hsp]
  have hseal : setupRsaPublicKey P f
      = ({ f with
            key := { f.key with raw := some raw },
            meta := { f.meta with
                      Key := CipherKeyKindRSA, Timestamp := P.now,
                      Rsa := some { Timestamp := P.now,
                                    Digest := P.computeDigest raw,
                                    Ciphertext := P.b64UrlEncode enc } } },
         .ok ()) := by
    simp [setupRsaPublicKey, setupRsaPublicKeyTr, hpub, sealSecret, hrand, henc]
  have hparse : parseRsaPrivateKey P
      { meta := { Key := g.meta.Key, Timestamp := g.meta.Timestamp,
                  Rsa := some { Timestamp := P.now, Digest := P.computeDigest raw,
                                Ciphertext := P.b64UrlEncode enc } },
        key := g.key, verbose := g.verbose } = .ok pri := by
    simp [parseRsaPrivateKey, locatedKey, stepOnePrivate, hpri]
  refine ⟨{ Timestamp := P.now, Digest := P.computeDigest raw,
            Ciphertext := P.b64UrlEncode enc }, ?_, ?_, hlen, ?_, rfl, ?_, ?_⟩
  · rw [hseal]
  · rw [hseal]
  · rw [hseal]
  · simp [setupRsaPrivateKey, hparse, unsealInput, hb64, hdec]
  · simp [setupRsaPrivateKey, hparse, unsealInput, hb64, hdec]

/-- Primitives for the C4 witness: a matched key pair with trivial but
consistent codecs; the random source yields thirty-two bytes of 7. -/
def rtPrims : CryptoPrims :=
  { basePrims with
    parseAuthorizedKey := fun _ => .ok { crypto := some (.rsaPub ⟨1⟩) },
    randRead32 := .ok (List.replicate 32 7),
    encryptOAEP := fun _ msg => .ok (msg.map (fun n => n + 1)),
    decryptOAEP := fun _ c => .ok (c.map (fun n => n - 1)),
    b64UrlEncode := fun _ => "CT",
    b64UrlDecode := fun s =>
      if s = "CT" then (List.replicate 32 8, none)
      else ([], some (.libError "illegal base64 data")),
    computeDigest := fun b => if b = List.replicate 32 7 then "D7" else "?",
    parseRawPrivateKey := fun _ => .ok (.rsaPriv ⟨1⟩) }

/-- Witness for C4 at the concrete matched pair. -/
theorem C4_seal_unseal_roundtrip_witness :
    rtPrims.parseAuthorizedKey (mkFortifier [1]).key.bytes
      = .ok { crypto := some (.rsaPub ⟨1⟩) } ∧
    rtPrims.randRead32 = .ok (List.replicate 32 7) ∧
    rtPrims.encryptOAEP ⟨1⟩ (List.replicate 32 7) = .ok (List.replicate 32 8) ∧
    rtPrims.b64UrlDecode (rtPrims.b64UrlEncode (List.replicate 32 8))
      = (List.replicate 32 8, none) ∧
    rtPrims.decryptOAEP ⟨1⟩ (List.replicate 32 8) = .ok (List.replicate 32 7) ∧
    rtPrims.parseRawPrivateKey (mkFortifier [2]).key.bytes = .ok (.rsaPriv ⟨1⟩) ∧
    (∃ m : MetadataRsa,
      (setupRsaPublicKey rtPrims (mkFortifier [1])).2 = .ok () ∧
      (setupRsaPublicKey rtPrims (mkFortifier [1])).1.key.raw
        = some (List.replicate 32 7) ∧
      (List.replicate 32 7 : Bytes).length = 32 ∧
      (setupRsaPublicKey rtPrims (mkFortifier [1])).1.meta.Rsa = some m ∧
      m.Digest = rtPrims.computeDigest (List.replicate 32 7) ∧
      (setupRsaPrivateKey rtPrims (unsealInput (mkFortifier [2]) m)).2 = .ok () ∧
      (setupRsaPrivateKey rtPrims (unsealInput (mkFortifier [2]) m)).1.key.raw
        = some (List.replicate 32 7)) :=
  ⟨by decide, by decide, by decide, by decide, by decide, by decide,
   C4_seal_unseal_roundtrip rtPrims (mkFortifier [1]) (mkFortifier [2])
     { crypto := some (.rsaPub ⟨1⟩) } ⟨1⟩ ⟨1⟩
     (List.replicate 32 7) (List.replicate 32 8)
     (by decide) (by decide) (by decide) (by decide) (by decide) (by decide)
     (by decide) (by decide)⟩

end Fortify
